import Mathlib

/-!
Verification of the `hfortix-fortiztp` client SDK against its
natural-language specification.

The development shallowly embeds the repository's Python code:

* `src/hfortix_fortiztp/models.py` — the `FortiZTPResponse` envelope, a
  dynamic-attribute proxy over a payload dictionary;
* `src/hfortix_fortiztp/api/v2/devices.py`, `scripts.py`,
  `fortimanagers.py`, `system.py` — the endpoint methods;
* `src/hfortix_fortiztp/__init__.py` — the `FortiZTP` client facade and
  its authentication-mode resolution.

Python dictionaries are modelled as association lists in insertion order,
Python `int` as `Int`, Python `float` as `ℚ` (only the three-decimal
rendering of the elapsed time is ever observed, modelled with round-half-even
as CPython's percent-.3f formatting performs correctly rounded decimal
conversion), optional arguments as `Option`, and exceptions as `Except`.
Payload values are an abstract type parameter `V`.
-/

/-- A Python `dict` with `String` keys, as an association list in insertion
order.  CPython dictionaries preserve insertion order and have no duplicate
keys; well-formedness (`Nodup` of the keys) is assumed where a claim needs
it. -/
abbrev PyDict (V : Type) : Type := List (String × V)

/-- `d.get(k)` for a Python dict: the value stored at the first (and, for a
well-formed dict, only) occurrence of key `k`. -/
def dictGet {V : Type} (d : PyDict V) (k : String) : Option V :=
  match d with
  | [] => none
  | (k', v) :: rest => if k' = k then some v else dictGet rest k

/-- `k in d` for a Python dict. -/
def dictContains {V : Type} (d : PyDict V) (k : String) : Bool :=
  (dictGet d k).isSome

/-- `list(d)` for a Python dict: the keys in insertion order. -/
def dictKeys {V : Type} (d : PyDict V) : List String :=
  d.map Prod.fst

/-- Truthiness of a Python `Optional[int]`: `None` and `0` are falsy. -/
def pyTruthyOptInt (o : Option Int) : Bool :=
  match o with
  | none => false
  | some n => n != 0

/-- Truthiness of a Python `Optional[float]`: `None` and `0.0` are falsy. -/
def pyTruthyOptRat (o : Option ℚ) : Bool :=
  match o with
  | none => false
  | some q => q != 0

/-- Truthiness of a Python `Optional[str]`: `None` and the empty string are
falsy. -/
def pyTruthyOptStr (o : Option String) : Bool :=
  match o with
  | none => false
  | some s => !(s == "")

/-- Python `name.startswith` applied to the single-character reserved-name
marker: true exactly when the first character is an underscore. -/
def pyStartsWithUnderscore (s : String) : Bool :=
  match s.data with
  | [] => false
  | c :: _ => c = '_'

/-- Zero-padding of the fractional part for three-decimal rendering. -/
def pad3 (n : Nat) : String :=
  if n < 10 then "00" ++ toString n
  else if n < 100 then "0" ++ toString n
  else toString n

/-- Round a rational to the nearest integer, ties to even — the rounding
CPython's percent-.3f conversion applies to the (exact) value being
formatted. -/
def roundHalfEven (q : ℚ) : ℤ :=
  let f := q.floor
  let frac := q - (f : ℚ)
  if frac < 1/2 then f
  else if 1/2 < frac then f + 1
  else if f % 2 = 0 then f else f + 1

/-- Python `f"{q:.3f}"` on the exact value `q`: three decimal places,
correctly rounded. -/
def fmt3 (q : ℚ) : String :=
  let n := roundHalfEven (q * 1000)
  let sign := if n < 0 then "-" else ""
  let m := n.natAbs
  sign ++ toString (m / 1000) ++ "." ++ pad3 (m % 1000)

/-- A Python runtime value as produced by attribute lookup on a
`FortiZTPResponse` instance: a payload value reached through the
`__getattr__` hook, a mapping, one of the optional metadata values held by
the instance attributes and properties, or a bound method.  Distinct
constructors model values of distinct Python types, which are never equal
to one another. -/
inductive PyVal (V : Type) where
  | payloadVal : V → PyVal V
  | mapping : PyDict V → PyVal V
  | optInt : Option Int → PyVal V
  | optRat : Option ℚ → PyVal V
  | optMapping : Option (PyDict V) → PyVal V
  | optVal : Option V → PyVal V
  | method : String → PyVal V
  deriving DecidableEq

/-- The instance attributes set by `__init__` (models.py lines 67-70);
normal attribute lookup finds these before `__getattr__` is consulted. -/
def pyInstanceAttrNames : List String :=
  ["_data", "_http_status_code", "_response_time", "_request_info"]

/-- The properties defined in the class body of `FortiZTPResponse`
(models.py lines 76-126). -/
def classPropertyNames : List String :=
  ["http_status_code", "response_time", "raw", "request_info",
   "request_method", "request_url", "request_params", "request_data"]

/-- The plain methods defined in the class body of `FortiZTPResponse`
together with the special methods it defines and the attributes every
CPython object inherits from `object` and from its class namespace; all
are found by normal attribute lookup, so `__getattr__` is never invoked
for them. -/
def classMethodNames : List String :=
  ["dict", "get",
   "__init__", "__getattr__", "__getitem__", "__contains__", "__iter__",
   "__len__", "__repr__",
   "__class__", "__delattr__", "__dict__", "__dir__", "__doc__", "__eq__",
   "__format__", "__ge__", "__getattribute__", "__getstate__", "__gt__",
   "__hash__", "__init_subclass__", "__le__", "__lt__", "__module__",
   "__ne__", "__new__", "__qualname__", "__reduce__", "__reduce_ex__",
   "__setattr__", "__sizeof__", "__str__", "__subclasshook__",
   "__weakref__", "__annotations__", "__firstlineno__",
   "__static_attributes__"]

/-- Every name that normal (pre-`__getattr__`) attribute lookup resolves
on the class: properties, methods, special methods and inherited `object`
attributes. -/
def pyClassAttrNames : List String :=
  classPropertyNames ++ classMethodNames

/-- `FortiZTPResponse.__init__` (models.py lines 51-70): the four instance
attributes, with the constructor defaults `None` for the metadata. -/
structure FortiZTPResponse (V : Type) where
  _data : PyDict V
  _http_status_code : Option Int := none
  _response_time : Option ℚ := none
  _request_info : Option (PyDict V) := none

namespace FortiZTPResponse

variable {V : Type}

/-- Property `http_status_code` (models.py lines 76-79). -/
def http_status_code (r : FortiZTPResponse V) : Option Int :=
  r._http_status_code

/-- Property `response_time` (models.py lines 81-84). -/
def response_time (r : FortiZTPResponse V) : Option ℚ :=
  r._response_time

/-- Property `raw` (models.py lines 86-89): the payload mapping itself. -/
def raw (r : FortiZTPResponse V) : PyDict V :=
  r._data

/-- Property `request_info` (models.py lines 91-94). -/
def request_info (r : FortiZTPResponse V) : Option (PyDict V) :=
  r._request_info

/-- Shared body of the four `request_*` convenience properties
(models.py lines 100-126): `if self._request_info:` is a truthiness test,
so `None` and the empty mapping both yield `None`. -/
def requestInfoGet (r : FortiZTPResponse V) (k : String) : Option V :=
  match r._request_info with
  | some m => if m.isEmpty then none else dictGet m k
  | none => none

/-- Property `request_method` (models.py lines 100-105). -/
def request_method (r : FortiZTPResponse V) : Option V :=
  r.requestInfoGet "method"

/-- Property `request_url` (models.py lines 107-112). -/
def request_url (r : FortiZTPResponse V) : Option V :=
  r.requestInfoGet "url"

/-- Property `request_params` (models.py lines 114-119). -/
def request_params (r : FortiZTPResponse V) : Option V :=
  r.requestInfoGet "params"

/-- Property `request_data` (models.py lines 121-126). -/
def request_data (r : FortiZTPResponse V) : Option V :=
  r.requestInfoGet "data"

/-- Method `dict()` (models.py lines 132-139): a copy of the payload; in
the pure embedding a copy is the mapping itself. -/
def dict (r : FortiZTPResponse V) : PyDict V :=
  r._data

/-- Method `get(key, default)` (models.py lines 141-152): total access
over the payload, `self._data.get(key, default)`. -/
def get (r : FortiZTPResponse V) (key : String) (default : V) : V :=
  (dictGet r._data key).getD default

/-- The `AttributeError` message raised by `__getattr__`
(models.py lines 168 and 173); the source wraps both names in single
quotation marks, elided here. -/
def attributeErrorMsg (name : String) : String :=
  "FortiZTPResponse object has no attribute " ++ name

/-- The `KeyError` raised by `self._data[key]` inside `__getitem__`
(models.py line 185) carries the missing key. -/
def keyErrorMsg (key : String) : String :=
  "KeyError: " ++ key

/-- `__getattr__` (models.py lines 154-173): the fallback hook Python
invokes only after normal attribute lookup fails.  Names starting with
the reserved marker are refused outright; otherwise the payload is
consulted. -/
def getattrHook (r : FortiZTPResponse V) (name : String) : Except String V :=
  if pyStartsWithUnderscore name then .error (attributeErrorMsg name)
  else
    match dictGet r._data name with
    | some v => .ok v
    | none => .error (attributeErrorMsg name)

/-- `__getitem__` (models.py lines 175-185): `self._data[key]`, raising
`KeyError` on an absent key. -/
def getitem (r : FortiZTPResponse V) (key : String) : Except String V :=
  match dictGet r._data key with
  | some v => .ok v
  | none => .error (keyErrorMsg key)

/-- `__contains__` (models.py lines 187-189). -/
def contains (r : FortiZTPResponse V) (key : String) : Bool :=
  dictContains r._data key

/-- `__iter__` (models.py lines 191-193): iteration over the payload keys
in insertion order. -/
def iter (r : FortiZTPResponse V) : List String :=
  dictKeys r._data

/-- `__len__` (models.py lines 195-197). -/
def len (r : FortiZTPResponse V) : Nat :=
  r._data.length

/-- `__repr__` (models.py lines 199-205).  Both guards are Python
truthiness tests, so a status code of `0` or an elapsed time of `0.0`
renders as if it were absent. -/
def reprString (r : FortiZTPResponse V) : String :=
  let status :=
    match r._http_status_code with
    | some c => if c = 0 then "" else "status=" ++ toString c
    | none => ""
  let time :=
    match r._response_time with
    | some t => if t = 0 then "" else "time=" ++ fmt3 t ++ "s"
    | none => ""
  let parts := [status, time].filter (fun p => !(p == ""))
  let metadata :=
    if parts.isEmpty then "" else "(" ++ String.intercalate ", " parts ++ ")"
  "<FortiZTPResponse" ++ metadata ++ ">"

/-- The CPython builtin `getattr(envelope, name)` on a `FortiZTPResponse`
instance.  Normal attribute lookup runs first: the instance attributes
set by `__init__`, then the class namespace (properties evaluate through
`self`, plain and special methods bind, `object` attributes resolve).
Only when all of these miss does Python invoke the `__getattr__` hook of
models.py lines 154-173, embedded above as `getattrHook`.  Data
descriptors (the properties) and the instance dictionary use disjoint
name sets here, so the if-chain order is observationally faithful. -/
def pyGetattr (r : FortiZTPResponse V) (name : String) : Except String (PyVal V) :=
  if name = "_data" then .ok (.mapping r._data)
  else if name = "_http_status_code" then .ok (.optInt r._http_status_code)
  else if name = "_response_time" then .ok (.optRat r._response_time)
  else if name = "_request_info" then .ok (.optMapping r._request_info)
  else if name = "http_status_code" then .ok (.optInt r.http_status_code)
  else if name = "response_time" then .ok (.optRat r.response_time)
  else if name = "raw" then .ok (.mapping r.raw)
  else if name = "request_info" then .ok (.optMapping r.request_info)
  else if name = "request_method" then .ok (.optVal r.request_method)
  else if name = "request_url" then .ok (.optVal r.request_url)
  else if name = "request_params" then .ok (.optVal r.request_params)
  else if name = "request_data" then .ok (.optVal r.request_data)
  else if name ∈ classMethodNames then .ok (.method name)
  else (r.getattrHook name).map .payloadVal

end FortiZTPResponse

/-- A value placed into a query-parameter or request-body mapping by an
endpoint method: the source puts strings (serial numbers, enum literals),
integers (oids, timestamps) and booleans (cache and script flags) there. -/
inductive QVal where
  | qstr : String → QVal
  | qbool : Bool → QVal
  | qint : Int → QVal
  deriving DecidableEq

/-- The `data=` argument an endpoint method passes to the transport: a
JSON-object mapping built field by field, or — for `bulk_provision` — the
caller-supplied list of device dictionaries passed through unchanged. -/
inductive RequestData (V : Type) where
  | obj : PyDict QVal → RequestData V
  | arr : List V → RequestData V
  deriving DecidableEq

/-- Modelled from the spec: the transport collaborator (`CloudHTTPClient`
of the external `hfortix_core` library, not part of this repository)
performs one HTTP exchange and, per the spec's external-interface
contract, produces a payload mapping together with the status code,
elapsed time, and request metadata of that exchange.  The Python-level
return value of `client.get`/`put`/`post`/`delete` that the endpoint
methods receive is the `payload` component. -/
structure TransportExchange (V : Type) where
  payload : PyDict V
  status_code : Int
  elapsed : ℚ
  request_meta : PyDict V
  deriving DecidableEq

/-- Modelled from the spec: the verbs of the external transport
collaborator, `get/put/post/delete(path, params?, data?)`, each raising
(`Except.error`) on network, authentication, or HTTP-status failure.  A
`none` second argument models calling the verb without the optional
`params=`/`data=` keyword. -/
structure CloudHTTPClient (V E : Type) where
  get : String → Option (PyDict QVal) → Except E (TransportExchange V)
  put : String → Option (RequestData V) → Except E (TransportExchange V)
  post : String → Option (RequestData V) → Except E (TransportExchange V)
  delete : String → Except E (TransportExchange V)

/-- `FortiZTPResponse(response)` as every endpoint method constructs it:
only the raw result is passed, so the three metadata arguments keep their
constructor defaults `None` (models.py lines 51-70). -/
def wrapResponse {V : Type} (ex : TransportExchange V) : FortiZTPResponse V :=
  { _data := ex.payload }

/-- `DevicesAPI` (devices.py lines 20-25): holds the injected transport
client. -/
structure DevicesAPI (V E : Type) where
  _client : CloudHTTPClient V E

namespace DevicesAPI

variable {V E : Type}

/-- The query mapping built by `DevicesAPI.list` (devices.py lines 58-67):
`params = {}` followed by one conditional camelCase insertion per optional
filter, in source order, guarded by `is not None`. -/
def listQuery (provision_status device_type device_sn : Option String)
    (use_cache : Option Bool) : PyDict QVal :=
  let params : PyDict QVal := []
  let params := match provision_status with
    | some v => params ++ [("provisionStatus", QVal.qstr v)]
    | none => params
  let params := match device_type with
    | some v => params ++ [("deviceType", QVal.qstr v)]
    | none => params
  let params := match device_sn with
    | some v => params ++ [("deviceSN", QVal.qstr v)]
    | none => params
  let params := match use_cache with
    | some v => params ++ [("useCache", QVal.qbool v)]
    | none => params
  params

/-- `DevicesAPI.list` (devices.py lines 27-73): `GET /v2/devices` with the
filter query, wrapping the raw result. -/
def list (api : DevicesAPI V E)
    (provision_status device_type device_sn : Option String := none)
    (use_cache : Option Bool := none) : Except E (FortiZTPResponse V) :=
  (api._client.get "/v2/devices"
      (some (listQuery provision_status device_type device_sn use_cache))).map
    wrapResponse

/-- `DevicesAPI.bulk_provision` (devices.py lines 76-107): `PUT /v2/devices`
with the caller's device list as the body. -/
def bulk_provision (api : DevicesAPI V E) (devices : List V) :
    Except E (FortiZTPResponse V) :=
  (api._client.put "/v2/devices" (some (.arr devices))).map wrapResponse

/-- The query mapping built by `DevicesAPI.get` (devices.py lines 138-141). -/
def getQuery (use_cache : Option Bool) : PyDict QVal :=
  let params : PyDict QVal := []
  let params := match use_cache with
    | some v => params ++ [("useCache", QVal.qbool v)]
    | none => params
  params

/-- `DevicesAPI.get` (devices.py lines 110-147): `GET /v2/devices/{sn}`. -/
def get (api : DevicesAPI V E) (device_sn : String)
    (use_cache : Option Bool := none) : Except E (FortiZTPResponse V) :=
  (api._client.get ("/v2/devices/" ++ device_sn)
      (some (getQuery use_cache))).map wrapResponse

/-- The body built by `DevicesAPI.put` (devices.py lines 202-228): three
unconditional camelCase fields followed by eleven `is not None`-guarded
ones, in source order. -/
def putBody (device_sn device_type provision_status : String)
    (provision_target region external_controller_sn external_controller_ip
      platform firmware_profile : Option String)
    (forti_manager_oid script_oid : Option Int)
    (use_default_script : Option Bool)
    (provisioning_timestamp provisioning_complete_timestamp : Option Int) :
    PyDict QVal :=
  let data : PyDict QVal := []
  let data := data ++ [("deviceSN", QVal.qstr device_sn)]
  let data := data ++ [("deviceType", QVal.qstr device_type)]
  let data := data ++ [("provisionStatus", QVal.qstr provision_status)]
  let data := match provision_target with
    | some v => data ++ [("provisionTarget", QVal.qstr v)]
    | none => data
  let data := match region with
    | some v => data ++ [("region", QVal.qstr v)]
    | none => data
  let data := match external_controller_sn with
    | some v => data ++ [("externalControllerSn", QVal.qstr v)]
    | none => data
  let data := match external_controller_ip with
    | some v => data ++ [("externalControllerIp", QVal.qstr v)]
    | none => data
  let data := match platform with
    | some v => data ++ [("platform", QVal.qstr v)]
    | none => data
  let data := match firmware_profile with
    | some v => data ++ [("firmwareProfile", QVal.qstr v)]
    | none => data
  let data := match forti_manager_oid with
    | some v => data ++ [("fortiManagerOid", QVal.qint v)]
    | none => data
  let data := match script_oid with
    | some v => data ++ [("scriptOid", QVal.qint v)]
    | none => data
  let data := match use_default_script with
    | some v => data ++ [("useDefaultScript", QVal.qbool v)]
    | none => data
  let data := match provisioning_timestamp with
    | some v => data ++ [("provisioningTimestamp", QVal.qint v)]
    | none => data
  let data := match provisioning_complete_timestamp with
    | some v => data ++ [("provisioningCompleteTimestamp", QVal.qint v)]
    | none => data
  data

/-- `DevicesAPI.put` (devices.py lines 150-234): `PUT /v2/devices/{sn}`
with the provisioning body. -/
def put (api : DevicesAPI V E) (device_sn device_type provision_status : String)
    (provision_target region external_controller_sn external_controller_ip
      platform firmware_profile : Option String := none)
    (forti_manager_oid script_oid : Option Int := none)
    (use_default_script : Option Bool := none)
    (provisioning_timestamp provisioning_complete_timestamp : Option Int := none) :
    Except E (FortiZTPResponse V) :=
  (api._client.put ("/v2/devices/" ++ device_sn)
      (some (.obj (putBody device_sn device_type provision_status
        provision_target region external_controller_sn external_controller_ip
        platform firmware_profile forti_manager_oid script_oid
        use_default_script provisioning_timestamp
        provisioning_complete_timestamp)))).map wrapResponse

/-- `DevicesAPI.firmware_profiles` (devices.py lines 237-269):
`GET /v2/devices/{sn}/regions/{region}/firmwareprofiles`, no query, no
body. -/
def firmware_profiles (api : DevicesAPI V E) (device_sn region : String) :
    Except E (FortiZTPResponse V) :=
  (api._client.get
      ("/v2/devices/" ++ device_sn ++ "/regions/" ++ region ++ "/firmwareprofiles")
      none).map wrapResponse

end DevicesAPI

/-- `ScriptsAPI` (scripts.py lines 20-25). -/
structure ScriptsAPI (V E : Type) where
  _client : CloudHTTPClient V E

namespace ScriptsAPI

variable {V E : Type}

/-- `ScriptsAPI.scripts_get` (scripts.py lines 27-57):
`GET /v2/setting/scripts/{oid}`, no query argument. -/
def scripts_get (api : ScriptsAPI V E) (oid : Int) :
    Except E (FortiZTPResponse V) :=
  (api._client.get ("/v2/setting/scripts/" ++ toString oid) none).map
    wrapResponse

/-- The body built by `ScriptsAPI.scripts_put` and `scripts_post`
(scripts.py lines 90-95 and 194-199): `oid` and `name` unconditionally,
`updateTime` only when supplied. -/
def scriptsBody (oid : Int) (name : String) (update_time : Option Int) :
    PyDict QVal :=
  let data : PyDict QVal := []
  let data := data ++ [("oid", QVal.qint oid)]
  let data := data ++ [("name", QVal.qstr name)]
  let data := match update_time with
    | some v => data ++ [("updateTime", QVal.qint v)]
    | none => data
  data

/-- `ScriptsAPI.scripts_put` (scripts.py lines 60-101):
`PUT /v2/setting/scripts/{oid}` with the metadata body. -/
def scripts_put (api : ScriptsAPI V E) (oid : Int) (name : String)
    (update_time : Option Int := none) : Except E (FortiZTPResponse V) :=
  (api._client.put ("/v2/setting/scripts/" ++ toString oid)
      (some (.obj (scriptsBody oid name update_time)))).map wrapResponse

/-- `ScriptsAPI.scripts_delete` (scripts.py lines 104-134):
`DELETE /v2/setting/scripts/{oid}`. -/
def scripts_delete (api : ScriptsAPI V E) (oid : Int) :
    Except E (FortiZTPResponse V) :=
  (api._client.delete ("/v2/setting/scripts/" ++ toString oid)).map
    wrapResponse

/-- `ScriptsAPI.scripts_list` (scripts.py lines 137-162):
`GET /v2/setting/scripts`. -/
def scripts_list (api : ScriptsAPI V E) : Except E (FortiZTPResponse V) :=
  (api._client.get "/v2/setting/scripts" none).map wrapResponse

/-- `ScriptsAPI.scripts_post` (scripts.py lines 165-205):
`POST /v2/setting/scripts` with the metadata body. -/
def scripts_post (api : ScriptsAPI V E) (oid : Int) (name : String)
    (update_time : Option Int := none) : Except E (FortiZTPResponse V) :=
  (api._client.post "/v2/setting/scripts"
      (some (.obj (scriptsBody oid name update_time)))).map wrapResponse

/-- `ScriptsAPI.scripts_get_content` (scripts.py lines 208-238):
`GET /v2/setting/scripts/{oid}/content`. -/
def scripts_get_content (api : ScriptsAPI V E) (oid : Int) :
    Except E (FortiZTPResponse V) :=
  (api._client.get ("/v2/setting/scripts/" ++ toString oid ++ "/content")
      none).map wrapResponse

/-- `ScriptsAPI.scripts_put_content` (scripts.py lines 241-274):
`PUT /v2/setting/scripts/{oid}/content`.  The method accepts only `oid`;
its body is the literal `data = None` of line 268, so no script content is
ever sent. -/
def scripts_put_content (api : ScriptsAPI V E) (oid : Int) :
    Except E (FortiZTPResponse V) :=
  (api._client.put ("/v2/setting/scripts/" ++ toString oid ++ "/content")
      none).map wrapResponse

end ScriptsAPI

/-- `FortiManagersAPI` (fortimanagers.py lines 20-25). -/
structure FortiManagersAPI (V E : Type) where
  _client : CloudHTTPClient V E

namespace FortiManagersAPI

variable {V E : Type}

/-- `FortiManagersAPI.fortimanagers_get` (fortimanagers.py lines 27-57):
`GET /v2/setting/fortimanagers/{oid}`. -/
def fortimanagers_get (api : FortiManagersAPI V E) (oid : Int) :
    Except E (FortiZTPResponse V) :=
  (api._client.get ("/v2/setting/fortimanagers/" ++ toString oid) none).map
    wrapResponse

/-- The body built by `FortiManagersAPI.fortimanagers_put`
(fortimanagers.py lines 94-103): `oid` is a required `int`, so its
`is not None` guard always fires; `sn` and `ip` are unconditional;
`scriptOid` and `updateTime` only when supplied. -/
def fmgPutBody (oid : Int) (sn ip : String)
    (script_oid update_time : Option Int) : PyDict QVal :=
  let data : PyDict QVal := []
  let data := data ++ [("oid", QVal.qint oid)]
  let data := data ++ [("sn", QVal.qstr sn)]
  let data := data ++ [("ip", QVal.qstr ip)]
  let data := match script_oid with
    | some v => data ++ [("scriptOid", QVal.qint v)]
    | none => data
  let data := match update_time with
    | some v => data ++ [("updateTime", QVal.qint v)]
    | none => data
  data

/-- `FortiManagersAPI.fortimanagers_put` (fortimanagers.py lines 60-109):
`PUT /v2/setting/fortimanagers/{oid}`. -/
def fortimanagers_put (api : FortiManagersAPI V E) (oid : Int) (sn ip : String)
    (script_oid update_time : Option Int := none) :
    Except E (FortiZTPResponse V) :=
  (api._client.put ("/v2/setting/fortimanagers/" ++ toString oid)
      (some (.obj (fmgPutBody oid sn ip script_oid update_time)))).map
    wrapResponse

/-- `FortiManagersAPI.fortimanagers_delete` (fortimanagers.py lines
112-142): `DELETE /v2/setting/fortimanagers/{oid}`. -/
def fortimanagers_delete (api : FortiManagersAPI V E) (oid : Int) :
    Except E (FortiZTPResponse V) :=
  (api._client.delete ("/v2/setting/fortimanagers/" ++ toString oid)).map
    wrapResponse

/-- `FortiManagersAPI.fortimanagers_list` (fortimanagers.py lines 145-170):
`GET /v2/setting/fortimanagers`. -/
def fortimanagers_list (api : FortiManagersAPI V E) :
    Except E (FortiZTPResponse V) :=
  (api._client.get "/v2/setting/fortimanagers" none).map wrapResponse

/-- The body built by `FortiManagersAPI.fortimanagers_post`
(fortimanagers.py lines 204-214): optional `oid` first when supplied, then
`sn` and `ip` unconditionally, then optional `scriptOid` and `updateTime`. -/
def fmgPostBody (sn ip : String) (oid script_oid update_time : Option Int) :
    PyDict QVal :=
  let data : PyDict QVal := []
  let data := match oid with
    | some v => data ++ [("oid", QVal.qint v)]
    | none => data
  let data := data ++ [("sn", QVal.qstr sn)]
  let data := data ++ [("ip", QVal.qstr ip)]
  let data := match script_oid with
    | some v => data ++ [("scriptOid", QVal.qint v)]
    | none => data
  let data := match update_time with
    | some v => data ++ [("updateTime", QVal.qint v)]
    | none => data
  data

/-- `FortiManagersAPI.fortimanagers_post` (fortimanagers.py lines 173-221):
`POST /v2/setting/fortimanagers`. -/
def fortimanagers_post (api : FortiManagersAPI V E) (sn ip : String)
    (oid script_oid update_time : Option Int := none) :
    Except E (FortiZTPResponse V) :=
  (api._client.post "/v2/setting/fortimanagers"
      (some (.obj (fmgPostBody sn ip oid script_oid update_time)))).map
    wrapResponse

end FortiManagersAPI

/-- `SystemAPI` (system.py lines 20-25). -/
structure SystemAPI (V E : Type) where
  _client : CloudHTTPClient V E

/-- `SystemAPI.get` (system.py lines 27-52): `GET /v2/system`. -/
def SystemAPI.get {V E : Type} (api : SystemAPI V E) :
    Except E (FortiZTPResponse V) :=
  (api._client.get "/v2/system" none).map wrapResponse

/-- Modelled from the spec: the externally managed multi-service
`CloudSession` collaborator, reduced to what `FortiZTP.__init__` consumes —
`get_token(client_id)`, the `_check_before_request` flag that enables the
refresh callback, and `ensure_token_valid(client_id)` behind it. -/
structure CloudSession where
  get_token : String → String
  _check_before_request : Bool

/-- How `FortiZTP.__init__` resolved its transport-level token
(`__init__.py` lines 251-285): from the session (with or without a
refresh callback), by credential auto-login through `FortiCloudAuth`
(a network call made during construction), or from a pre-obtained token. -/
inductive TokenSource where
  | viaSession : String → Bool → TokenSource
  | viaCredentials : String → String → TokenSource
  | viaProvidedToken : String → TokenSource
  deriving DecidableEq

/-- The configuration error raised at `__init__.py` lines 270-272. -/
def authConfigErrorMsg : String :=
  "Either session, oauth_token, or (api_id and password) must be provided"

/-- The authentication-mode resolution of `FortiZTP.__init__`
(`__init__.py` lines 251-285), the part of construction that runs before
the `CloudHTTPClient` is created: `if session:` wins outright,
`elif not oauth_token:` enters direct-auth mode, which demands truthy
`api_id` and `password` (`if not api_id or not password:` raises the
`ValueError`) and otherwise performs the `FortiCloudAuth` auto-login;
a truthy `oauth_token` is used as-is.  The error branch constructs no
collaborator and performs no network call.  An object argument for
`session` is always truthy in CPython. -/
def FortiZTP.resolveTokenSource (client_id : String)
    (api_id password oauth_token : Option String)
    (session : Option CloudSession) : Except String TokenSource :=
  match session with
  | some sess =>
      .ok (.viaSession (sess.get_token client_id) sess._check_before_request)
  | none =>
      if !pyTruthyOptStr oauth_token then
        if !pyTruthyOptStr api_id || !pyTruthyOptStr password then
          .error authConfigErrorMsg
        else
          .ok (.viaCredentials (api_id.getD "") (password.getD ""))
      else
        .ok (.viaProvidedToken (oauth_token.getD ""))

/-- How many of the three mutually exclusive authentication modes of the
spec are resolvable from the constructor arguments: a session object, a
truthy pre-obtained token, or a truthy credential pair. -/
def resolvableAuthModes (api_id password oauth_token : Option String)
    (session : Option CloudSession) : Nat :=
  (if session.isSome then 1 else 0) +
    (if pyTruthyOptStr oauth_token then 1 else 0) +
    (if pyTruthyOptStr api_id && pyTruthyOptStr password then 1 else 0)

/-- Whether a Python call completed normally (`Except.ok`) rather than by
raising (`Except.error`). -/
def exceptIsOk {ε α : Type} : Except ε α → Bool
  | .ok _ => true
  | .error _ => false

/-- A concrete transport exchange: payload `total=3`, HTTP 200, half a
second elapsed, request metadata recording the verb. -/
def demoExchange : TransportExchange String :=
  { payload := [("total", "3")]
    status_code := 200
    elapsed := 1/2
    request_meta := [("method", "GET")] }

/-- A transport client whose every exchange succeeds with `demoExchange`. -/
def demoClient : CloudHTTPClient String String :=
  { get := fun _ _ => .ok demoExchange
    put := fun _ _ => .ok demoExchange
    post := fun _ _ => .ok demoExchange
    delete := fun _ => .ok demoExchange }

/-- A transport client whose every call raises the same error, standing in
for a network, authentication, or HTTP-status failure. -/
def errClient : CloudHTTPClient Nat String :=
  { get := fun _ _ => .error "boom"
    put := fun _ _ => .error "boom"
    post := fun _ _ => .error "boom"
    delete := fun _ => .error "boom" }

/-- A successful empty exchange used by the body-observation clients. -/
def emptyExchange : TransportExchange Nat :=
  { payload := [], status_code := 200, elapsed := 0, request_meta := [] }

/-- A client that succeeds only on body-less `PUT` calls: it distinguishes
whether any request body was transmitted. -/
def contentClientA : CloudHTTPClient Nat String :=
  { get := fun _ _ => .error "unused"
    put := fun _ b => match b with
      | none => .ok emptyExchange
      | some _ => .error "body transmitted"
    post := fun _ _ => .error "unused"
    delete := fun _ => .error "unused" }

/-- A client that succeeds on every `PUT`; it agrees with `contentClientA`
exactly on body-less `PUT` calls. -/
def contentClientB : CloudHTTPClient Nat String :=
  { get := fun _ _ => .error "other"
    put := fun _ _ => .ok emptyExchange
    post := fun _ _ => .error "other"
    delete := fun _ => .error "other" }

/-- A concrete externally managed session handing out one token. -/
def demoSession : CloudSession :=
  { get_token := fun _ => "session-token", _check_before_request := true }

/-! ## Helper lemmas -/

/-- A string with a nonempty head segment is nonempty. -/
theorem aux_append_left_ne_empty (s t : String) (h : s ≠ "") : s ++ t ≠ "" := by
  intro he
  apply h
  have hd := congrArg String.data he
  rw [String.data_append] at hd
  exact String.ext (List.append_eq_nil.mp hd).1

/-- Mapping a function over a raised `Except` leaves the error unchanged. -/
theorem aux_map_error {ε α β : Type} (e : ε) (f : α → β) :
    (Except.error e : Except ε α).map f = Except.error e := rfl

/-! ## C2 -/

/-- Claim C2, settled against the code as a code bug witness: on a
completed exchange whose transport-produced status code is 200, elapsed
time one half second, and request metadata `method=GET`, the envelope
returned by the endpoint method `DevicesAPI.list` carries `None` for all
three metadata fields, because every endpoint method constructs
`FortiZTPResponse(response)` passing only the payload. -/
theorem C2_transport_metadata_dropped :
    (DevicesAPI.list ⟨demoClient⟩ none none none none).map
        (fun env => (env.http_status_code, env.response_time, env.request_info)) =
      .ok (none, none, none) ∧
    demoClient.get "/v2/devices" (some []) = .ok demoExchange ∧
    demoExchange.status_code = 200 ∧
    demoExchange.elapsed = 1/2 ∧
    demoExchange.request_meta = [("method", "GET")] ∧
    (DevicesAPI.list ⟨demoClient⟩ none none none none).map
        (fun env => env.http_status_code) ≠ .ok (some demoExchange.status_code) :=
  ⟨rfl, rfl, rfl, rfl, rfl, by simp [DevicesAPI.list, demoClient, demoExchange,
    wrapResponse, FortiZTPResponse.http_status_code, Except.map]⟩

/-! ## C10 -/

/-- Claim C10: `scripts_put_content(oid)` issues
`PUT /v2/setting/scripts/(oid)/content` with body `None`; its result
depends only on the transport behaviour at body-less `PUT` calls, so no
script content is ever transmitted. -/
theorem C10_put_content_no_body {V E : Type} (api : ScriptsAPI V E) (oid : Int)
    (other : CloudHTTPClient V E)
    (hAgree : ∀ p, api._client.put p none = other.put p none) :
    ScriptsAPI.scripts_put_content api oid =
      (api._client.put ("/v2/setting/scripts/" ++ toString oid ++ "/content")
          none).map wrapResponse ∧
    ScriptsAPI.scripts_put_content api oid =
      ScriptsAPI.scripts_put_content ⟨other⟩ oid := by
  constructor
  · rfl
  · simp only [ScriptsAPI.scripts_put_content, hAgree]

/-- Witness for C10 at `oid = 5`: a client refusing every `PUT` that
carries a body behaves, through `scripts_put_content`, exactly like one
accepting every `PUT` — the call succeeds and transmits nothing. -/
theorem C10_witness :
    ScriptsAPI.scripts_put_content ⟨contentClientA⟩ 5 =
      (contentClientA.put "/v2/setting/scripts/5/content" none).map
        wrapResponse ∧
    ScriptsAPI.scripts_put_content ⟨contentClientA⟩ 5 =
      ScriptsAPI.scripts_put_content ⟨contentClientB⟩ 5 :=
  C10_put_content_no_body ⟨contentClientA⟩ 5 contentClientB (fun _ => rfl)

/-! ## C6 -/

/-- Claim C6: when the transport collaborator raises, every endpoint
method of the four endpoint groups propagates that exact error unchanged
and constructs no response envelope. -/
theorem C6_transport_errors_propagate {V E : Type} (e : E)
    (client : CloudHTTPClient V E)
    (ps dt sn : Option String) (uc : Option Bool) (devices : List V)
    (dsn dty pst region fsn fip scriptName : String)
    (pt rg ecs eci pf fwp : Option String)
    (fmo so foid ut pts pcts : Option Int) (uds : Option Bool) (oid : Int)
    (hget : ∀ p q, client.get p q = .error e)
    (hput : ∀ p b, client.put p b = .error e)
    (hpost : ∀ p b, client.post p b = .error e)
    (hdel : ∀ p, client.delete p = .error e) :
    DevicesAPI.list ⟨client⟩ ps dt sn uc = .error e ∧
    DevicesAPI.bulk_provision ⟨client⟩ devices = .error e ∧
    DevicesAPI.get ⟨client⟩ dsn uc = .error e ∧
    DevicesAPI.put ⟨client⟩ dsn dty pst pt rg ecs eci pf fwp fmo so uds
      pts pcts = .error e ∧
    DevicesAPI.firmware_profiles ⟨client⟩ dsn region = .error e ∧
    ScriptsAPI.scripts_get ⟨client⟩ oid = .error e ∧
    ScriptsAPI.scripts_put ⟨client⟩ oid scriptName ut = .error e ∧
    ScriptsAPI.scripts_delete ⟨client⟩ oid = .error e ∧
    ScriptsAPI.scripts_list ⟨client⟩ = .error e ∧
    ScriptsAPI.scripts_post ⟨client⟩ oid scriptName ut = .error e ∧
    ScriptsAPI.scripts_get_content ⟨client⟩ oid = .error e ∧
    ScriptsAPI.scripts_put_content ⟨client⟩ oid = .error e ∧
    FortiManagersAPI.fortimanagers_get ⟨client⟩ oid = .error e ∧
    FortiManagersAPI.fortimanagers_put ⟨client⟩ oid fsn fip foid ut = .error e ∧
    FortiManagersAPI.fortimanagers_delete ⟨client⟩ oid = .error e ∧
    FortiManagersAPI.fortimanagers_list ⟨client⟩ = .error e ∧
    FortiManagersAPI.fortimanagers_post ⟨client⟩ fsn fip foid so ut = .error e ∧
    SystemAPI.get ⟨client⟩ = .error e := by
  simp only [DevicesAPI.list, DevicesAPI.bulk_provision, DevicesAPI.get,
    DevicesAPI.put, DevicesAPI.firmware_profiles, ScriptsAPI.scripts_get,
    ScriptsAPI.scripts_put, ScriptsAPI.scripts_delete, ScriptsAPI.scripts_list,
    ScriptsAPI.scripts_post, ScriptsAPI.scripts_get_content,
    ScriptsAPI.scripts_put_content, FortiManagersAPI.fortimanagers_get,
    FortiManagersAPI.fortimanagers_put, FortiManagersAPI.fortimanagers_delete,
    FortiManagersAPI.fortimanagers_list, FortiManagersAPI.fortimanagers_post,
    SystemAPI.get, hget, hput, hpost, hdel, aux_map_error]
  simp

/-- Witness for C6: against the always-failing transport `errClient`,
three representative endpoint methods raise exactly its error. -/
theorem C6_witness :
    DevicesAPI.list ⟨errClient⟩ none none none none = .error "boom" ∧
    ScriptsAPI.scripts_put_content ⟨errClient⟩ 7 = .error "boom" ∧
    SystemAPI.get ⟨errClient⟩ = .error "boom" := by
  have h := C6_transport_errors_propagate "boom" errClient
    none none none none [] "" "" "" "" "" "" "" none none none none none none
    none none none none none none none 7
    (fun _ _ => rfl) (fun _ _ => rfl) (fun _ _ => rfl) (fun _ => rfl)
  exact ⟨h.1, h.2.2.2.2.2.2.2.2.2.2.2.1, h.2.2.2.2.2.2.2.2.2.2.2.2.2.2.2.2.2⟩

/-! ## C7 -/

/-- Claim C7: the query mapping `DevicesAPI.list` passes to the transport
contains exactly the camelCase keys of the optional filters supplied with
a non-`None` value, with their values; no filters yields an empty mapping
on `GET /v2/devices`, and an explicitly supplied `use_cache=False` is
still included as `useCache=False`. -/
theorem C7_list_query_exact {V E : Type} (api : DevicesAPI V E)
    (ps dt sn : Option String) (uc : Option Bool) :
    DevicesAPI.list api ps dt sn uc =
      (api._client.get "/v2/devices"
          (some (DevicesAPI.listQuery ps dt sn uc))).map wrapResponse ∧
    dictKeys (DevicesAPI.listQuery ps dt sn uc) =
      (if ps.isSome then ["provisionStatus"] else []) ++
        (if dt.isSome then ["deviceType"] else []) ++
        (if sn.isSome then ["deviceSN"] else []) ++
        (if uc.isSome then ["useCache"] else []) ∧
    dictGet (DevicesAPI.listQuery ps dt sn uc) "provisionStatus" =
      ps.map QVal.qstr ∧
    dictGet (DevicesAPI.listQuery ps dt sn uc) "deviceType" =
      dt.map QVal.qstr ∧
    dictGet (DevicesAPI.listQuery ps dt sn uc) "deviceSN" =
      sn.map QVal.qstr ∧
    dictGet (DevicesAPI.listQuery ps dt sn uc) "useCache" =
      uc.map QVal.qbool ∧
    DevicesAPI.listQuery none none none none = ([] : PyDict QVal) ∧
    ("useCache", QVal.qbool false) ∈ DevicesAPI.listQuery ps dt sn (some false) := by
  refine ⟨rfl, ?_, ?_, ?_, ?_, ?_, rfl, ?_⟩ <;>
    cases ps <;> cases dt <;> cases sn <;> (try cases uc) <;>
      simp [DevicesAPI.listQuery, dictKeys, dictGet]

/-! ## C5 -/

/-- Counterexample to claim C5 as stated: with both an externally managed
session and a pre-obtained token supplied, two of the three authentication
modes are resolvable, yet construction succeeds (the session wins); the
claimed requirement that exactly one mode be resolvable on pain of a
configuration error is therefore false on the code. -/
theorem C5_two_modes_counterexample :
    resolvableAuthModes none none (some "tok") (some demoSession) = 2 ∧
    FortiZTP.resolveTokenSource "fortiztp" none none (some "tok")
        (some demoSession) = .ok (.viaSession "session-token" true) ∧
    exceptIsOk (FortiZTP.resolveTokenSource "fortiztp" none none (some "tok")
        (some demoSession)) = true :=
  ⟨by decide, rfl, rfl⟩

/-- Claim C5 as amended: at least one of session, pre-obtained token, or
credential pair must be resolvable at construction; the `ValueError` of
`FortiZTP.__init__` is raised exactly when none is resolvable (and in
particular with no session, no token, and missing `api_id` or `password`),
synchronously in the argument-inspection phase that precedes creation of
the transport client, so before any network call; when several modes are
supplied, the session takes precedence over the token, which takes
precedence over the credentials. -/
theorem C5_config_error_iff_no_auth (cid : String)
    (aid pw tok : Option String) (session : Option CloudSession) :
    (FortiZTP.resolveTokenSource cid aid pw tok session =
        .error authConfigErrorMsg ↔
      resolvableAuthModes aid pw tok session = 0) ∧
    (∀ sess, session = some sess →
      FortiZTP.resolveTokenSource cid aid pw tok session =
        .ok (.viaSession (sess.get_token cid) sess._check_before_request)) ∧
    (session = none → pyTruthyOptStr tok = true →
      FortiZTP.resolveTokenSource cid aid pw tok session =
        .ok (.viaProvidedToken (tok.getD ""))) ∧
    (session = none → pyTruthyOptStr tok = false →
      pyTruthyOptStr aid = true → pyTruthyOptStr pw = true →
      FortiZTP.resolveTokenSource cid aid pw tok session =
        .ok (.viaCredentials (aid.getD "") (pw.getD ""))) := by
  refine ⟨?_, ?_, ?_, ?_⟩
  · cases session with
    | some sess => simp [FortiZTP.resolveTokenSource, resolvableAuthModes]
    | none =>
        cases hT : pyTruthyOptStr tok <;>
          cases hA : pyTruthyOptStr aid <;>
            cases hP : pyTruthyOptStr pw <;>
              simp [FortiZTP.resolveTokenSource, resolvableAuthModes, hT, hA, hP]
  · rintro sess rfl
    rfl
  · rintro rfl hT
    simp [FortiZTP.resolveTokenSource, hT]
  · rintro rfl hT hA hP
    simp [FortiZTP.resolveTokenSource, hT, hA, hP]

/-- Witness for C5: with no session, no token, and no credentials, zero
modes are resolvable and construction raises the configuration error. -/
theorem C5_witness :
    FortiZTP.resolveTokenSource "fortiztp" none none none none =
      .error authConfigErrorMsg ∧
    resolvableAuthModes none none none none = 0 :=
  ⟨(C5_config_error_iff_no_auth "fortiztp" none none none none).1.mpr
      (by decide),
    by decide⟩

/-! ## C9 -/

/-- Claim C9: every accessor of the envelope is a pure read — its result
is determined by the frozen payload, so two envelopes with the same
payload are observationally equal — iteration yields the payload keys in
insertion order (hence any two iterations of the same envelope agree),
and the length equals the number of (distinct, by dict well-formedness)
keys of the payload. -/
theorem C9_envelope_pure_reads {V : Type} (r r' : FortiZTPResponse V)
    (k : String) (d : V) (hd : r._data = r'._data)
    (hwf : (dictKeys r._data).Nodup) :
    r.iter = dictKeys r._data ∧
    r.iter = r'.iter ∧
    r.len = r.iter.length ∧
    r.len = r.iter.toFinset.card ∧
    r.get k d = r'.get k d ∧
    r.getitem k = r'.getitem k ∧
    r.contains k = r'.contains k ∧
    r.dict = r'.dict ∧
    r.raw = r'.raw := by
  have hcard : (dictKeys r._data).toFinset.card = r._data.length := by
    rw [List.toFinset_card_of_nodup hwf]
    simp [dictKeys]
  refine ⟨rfl, ?_, ?_, ?_, ?_, ?_, ?_, ?_, ?_⟩
  · simp [FortiZTPResponse.iter, hd]
  · simp [FortiZTPResponse.len, FortiZTPResponse.iter, dictKeys]
  · rw [FortiZTPResponse.len, FortiZTPResponse.iter, hcard]
  · simp [FortiZTPResponse.get, hd]
  · simp [FortiZTPResponse.getitem, hd]
  · simp [FortiZTPResponse.contains, dictContains, hd]
  · simp [FortiZTPResponse.dict, hd]
  · simp [FortiZTPResponse.raw, hd]

/-- Witness for C9 on a concrete two-field payload. -/
theorem C9_witness :
    FortiZTPResponse.iter (V := Nat) ⟨[("a", 1), ("b", 2)], none, none, none⟩ =
      dictKeys [("a", 1), ("b", 2)] ∧
    FortiZTPResponse.len (V := Nat) ⟨[("a", 1), ("b", 2)], none, none, none⟩ =
      (FortiZTPResponse.iter (V := Nat)
        ⟨[("a", 1), ("b", 2)], none, none, none⟩).toFinset.card :=
  have h := C9_envelope_pure_reads (V := Nat)
    ⟨[("a", 1), ("b", 2)], none, none, none⟩
    ⟨[("a", 1), ("b", 2)], none, none, none⟩ "a" 0 rfl (by decide)
  ⟨h.1, h.2.2.2.1⟩

/-! ## C1, C3, C4: attribute access -/

/-- When a requested name is neither an instance attribute nor resolvable
on the class, CPython attribute lookup reduces to the `__getattr__` hook
over the payload. -/
theorem aux_pyGetattr_fallback {V : Type} (r : FortiZTPResponse V) (k : String)
    (hInst : k ∉ pyInstanceAttrNames) (hClass : k ∉ pyClassAttrNames) :
    r.pyGetattr k = (r.getattrHook k).map PyVal.payloadVal := by
  have h1 : k ≠ "_data" := fun h => hInst (by rw [h]; decide)
  have h2 : k ≠ "_http_status_code" := fun h => hInst (by rw [h]; decide)
  have h3 : k ≠ "_response_time" := fun h => hInst (by rw [h]; decide)
  have h4 : k ≠ "_request_info" := fun h => hInst (by rw [h]; decide)
  have h5 : k ≠ "http_status_code" := fun h => hClass (by rw [h]; decide)
  have h6 : k ≠ "response_time" := fun h => hClass (by rw [h]; decide)
  have h7 : k ≠ "raw" := fun h => hClass (by rw [h]; decide)
  have h8 : k ≠ "request_info" := fun h => hClass (by rw [h]; decide)
  have h9 : k ≠ "request_method" := fun h => hClass (by rw [h]; decide)
  have h10 : k ≠ "request_url" := fun h => hClass (by rw [h]; decide)
  have h11 : k ≠ "request_params" := fun h => hClass (by rw [h]; decide)
  have h12 : k ≠ "request_data" := fun h => hClass (by rw [h]; decide)
  have h13 : k ∉ classMethodNames := fun h =>
    hClass (List.mem_append_right _ h)
  simp only [FortiZTPResponse.pyGetattr, if_neg h1, if_neg h2, if_neg h3,
    if_neg h4, if_neg h5, if_neg h6, if_neg h7, if_neg h8, if_neg h9,
    if_neg h10, if_neg h11, if_neg h12, if_neg h13]

/-- A name that does not start with the reserved marker is not one of the
underscore-prefixed instance attributes. -/
theorem aux_underscore_not_instance (k : String)
    (hS : pyStartsWithUnderscore k = false) : k ∉ pyInstanceAttrNames := by
  intro hmem
  have hx := (by decide :
    ∀ x ∈ pyInstanceAttrNames, pyStartsWithUnderscore x = true) k hmem
  exact Bool.noConfusion (hS.symm.trans hx)

/-- Counterexample to claim C1 as stated: on the payload with the single
pair `raw = 7`, the key `raw` does not start with the reserved marker and
is present, and mapping-style access and `get` both return `7`; but
attribute access resolves the `raw` property of the class first and
returns the whole payload mapping — a `dict`, not the integer `7` — so
the three access styles do not agree. -/
theorem C1_counterexample :
    pyStartsWithUnderscore "raw" = false ∧
    dictGet (V := Nat) [("raw", 7)] "raw" = some 7 ∧
    FortiZTPResponse.getitem (V := Nat) ⟨[("raw", 7)], none, none, none⟩
        "raw" = Except.ok 7 ∧
    FortiZTPResponse.get (V := Nat) ⟨[("raw", 7)], none, none, none⟩
        "raw" 0 = 7 ∧
    FortiZTPResponse.pyGetattr (V := Nat) ⟨[("raw", 7)], none, none, none⟩
        "raw" = Except.ok (PyVal.mapping [("raw", 7)]) ∧
    FortiZTPResponse.pyGetattr (V := Nat) ⟨[("raw", 7)], none, none, none⟩
        "raw" ≠ Except.ok (PyVal.payloadVal 7) := by
  refine ⟨by decide, rfl, rfl, rfl, rfl, ?_⟩
  rw [show FortiZTPResponse.pyGetattr (V := Nat)
      ⟨[("raw", 7)], none, none, none⟩ "raw" =
      Except.ok (PyVal.mapping [("raw", 7)]) from rfl]
  simp

/-- Claim C1 as amended: for every payload key that does not start with
the reserved-name marker and does not collide with a class member of the
wrapper (a property, method, special method, or inherited `object`
attribute), mapping-style access, `get`, and attribute-style access all
return the stored payload value. -/
theorem C1_access_styles_agree {V : Type} (r : FortiZTPResponse V)
    (k : String) (v d : V)
    (hS : pyStartsWithUnderscore k = false) (hClass : k ∉ pyClassAttrNames)
    (hData : dictGet r._data k = some v) :
    r.getitem k = Except.ok v ∧ r.get k d = v ∧
    r.pyGetattr k = Except.ok (PyVal.payloadVal v) := by
  refine ⟨?_, ?_, ?_⟩
  · simp [FortiZTPResponse.getitem, hData]
  · simp [FortiZTPResponse.get, hData]
  · rw [aux_pyGetattr_fallback r k (aux_underscore_not_instance k hS) hClass]
    simp [FortiZTPResponse.getattrHook, hS, hData, Except.map]

/-- Witness for C1 on the payload key `total`. -/
theorem C1_witness :
    FortiZTPResponse.getitem (V := Nat) ⟨[("total", 5)], none, none, none⟩
        "total" = Except.ok 5 ∧
    FortiZTPResponse.get (V := Nat) ⟨[("total", 5)], none, none, none⟩
        "total" 0 = 5 ∧
    FortiZTPResponse.pyGetattr (V := Nat) ⟨[("total", 5)], none, none, none⟩
        "total" = Except.ok (PyVal.payloadVal 5) :=
  C1_access_styles_agree ⟨[("total", 5)], none, none, none⟩ "total" 5 0
    (by decide) (by decide) rfl

/-- Counterexample to claim C3 as stated: the key `_data` starts with the
reserved marker and is present in the payload, containment and
mapping-style access behave as claimed, but `getattr` does not raise:
normal lookup finds the instance attribute `_data` — the payload mapping
itself — before `__getattr__` is ever consulted. -/
theorem C3_counterexample :
    pyStartsWithUnderscore "_data" = true ∧
    FortiZTPResponse.contains (V := Nat) ⟨[("_data", 5)], none, none, none⟩
        "_data" = true ∧
    FortiZTPResponse.getitem (V := Nat) ⟨[("_data", 5)], none, none, none⟩
        "_data" = Except.ok 5 ∧
    FortiZTPResponse.pyGetattr (V := Nat) ⟨[("_data", 5)], none, none, none⟩
        "_data" = Except.ok (PyVal.mapping [("_data", 5)]) ∧
    exceptIsOk (FortiZTPResponse.pyGetattr (V := Nat)
        ⟨[("_data", 5)], none, none, none⟩ "_data") = true :=
  ⟨by decide, rfl, rfl, rfl, rfl⟩

/-- Claim C3 as amended: a payload key that starts with the reserved
marker and does not collide with an instance attribute or class member is
unreachable through attribute access — `getattr` raises the
attribute-not-found error — even though containment reports it present
and mapping-style access returns its value. -/
theorem C3_reserved_names_unreachable {V : Type} (r : FortiZTPResponse V)
    (k : String) (v : V)
    (hS : pyStartsWithUnderscore k = true)
    (hInst : k ∉ pyInstanceAttrNames) (hClass : k ∉ pyClassAttrNames)
    (hData : dictGet r._data k = some v) :
    r.pyGetattr k = Except.error (FortiZTPResponse.attributeErrorMsg k) ∧
    r.contains k = true ∧
    r.getitem k = Except.ok v := by
  refine ⟨?_, ?_, ?_⟩
  · rw [aux_pyGetattr_fallback r k hInst hClass]
    simp [FortiZTPResponse.getattrHook, hS, Except.map]
  · simp [FortiZTPResponse.contains, dictContains, hData]
  · simp [FortiZTPResponse.getitem, hData]

/-- Witness for C3 on the reserved payload key `_foo`. -/
theorem C3_witness :
    FortiZTPResponse.pyGetattr (V := Nat) ⟨[("_foo", 1)], none, none, none⟩
        "_foo" = Except.error (FortiZTPResponse.attributeErrorMsg "_foo") ∧
    FortiZTPResponse.contains (V := Nat) ⟨[("_foo", 1)], none, none, none⟩
        "_foo" = true ∧
    FortiZTPResponse.getitem (V := Nat) ⟨[("_foo", 1)], none, none, none⟩
        "_foo" = Except.ok 1 :=
  C3_reserved_names_unreachable ⟨[("_foo", 1)], none, none, none⟩ "_foo" 1
    (by decide) (by decide) (by decide) rfl

/-- Counterexample to claim C4 as stated: on an empty payload, the key
`raw` is absent, `get` returns the default and mapping-style access raises
the key error as claimed — but `getattr` does not raise: it resolves the
`raw` property of the class and returns the (empty) payload mapping. -/
theorem C4_counterexample :
    dictGet (V := Nat) [] "raw" = none ∧
    FortiZTPResponse.get (V := Nat) ⟨[], none, none, none⟩ "raw" 9 = 9 ∧
    FortiZTPResponse.getitem (V := Nat) ⟨[], none, none, none⟩ "raw" =
      Except.error (FortiZTPResponse.keyErrorMsg "raw") ∧
    FortiZTPResponse.pyGetattr (V := Nat) ⟨[], none, none, none⟩ "raw" =
      Except.ok (PyVal.mapping []) ∧
    exceptIsOk (FortiZTPResponse.pyGetattr (V := Nat)
        ⟨[], none, none, none⟩ "raw") = true :=
  ⟨rfl, rfl, rfl, rfl, rfl⟩

/-- Claim C4 as amended: for a key absent from the payload, `get` returns
the supplied default for any default, mapping-style access raises the key
error, and — provided the key does not collide with an instance attribute
or class member — attribute access raises the attribute-not-found error. -/
theorem C4_absent_key_access {V : Type} (r : FortiZTPResponse V)
    (k : String) (X : V)
    (hData : dictGet r._data k = none)
    (hInst : k ∉ pyInstanceAttrNames) (hClass : k ∉ pyClassAttrNames) :
    r.get k X = X ∧
    r.getitem k = Except.error (FortiZTPResponse.keyErrorMsg k) ∧
    r.pyGetattr k = Except.error (FortiZTPResponse.attributeErrorMsg k) := by
  refine ⟨?_, ?_, ?_⟩
  · simp [FortiZTPResponse.get, hData]
  · simp [FortiZTPResponse.getitem, hData]
  · rw [aux_pyGetattr_fallback r k hInst hClass]
    cases hU : pyStartsWithUnderscore k <;>
      simp [FortiZTPResponse.getattrHook, hU, hData, Except.map]

/-- Witness for C4 on the absent key `missing` with default `42`. -/
theorem C4_witness :
    FortiZTPResponse.get (V := Nat) ⟨[("a", 1)], none, none, none⟩
        "missing" 42 = 42 ∧
    FortiZTPResponse.getitem (V := Nat) ⟨[("a", 1)], none, none, none⟩
        "missing" = Except.error (FortiZTPResponse.keyErrorMsg "missing") ∧
    FortiZTPResponse.pyGetattr (V := Nat) ⟨[("a", 1)], none, none, none⟩
        "missing" =
      Except.error (FortiZTPResponse.attributeErrorMsg "missing") :=
  C4_absent_key_access ⟨[("a", 1)], none, none, none⟩ "missing" 42
    (by decide) (by decide) (by decide)

/-! ## C8 -/

/-- Joining a two-element list with the comma separator. -/
theorem aux_intercalate_pair (a b : String) :
    String.intercalate ", " [a, b] = a ++ ", " ++ b := rfl

/-- Joining a one-element list with the comma separator. -/
theorem aux_intercalate_single (a : String) :
    String.intercalate ", " [a] = a := rfl

/-- The floor of the scaled example elapsed time. -/
theorem aux_floor_2469_half : ((2469 : ℚ)/2).floor = 1234 := by
  have h : ((2469 : ℚ)/2).floor = ⌊(2469 : ℚ)/2⌋ := by
    rw [Rat.floor_def', Rat.floor_def]
  rw [h, show ((2469 : ℚ)/2) = ((2469 : ℤ) : ℚ)/((2 : ℕ) : ℚ) by norm_num,
    Rat.floor_intCast_div_natCast]
  decide

/-- Rounding the spec example 1.2345 at three decimals: the tie goes to
the even thousandth, 1234. -/
theorem aux_roundHalfEven_example :
    roundHalfEven ((2469/2000 : ℚ) * 1000) = 1234 := by
  have hq : ((2469/2000 : ℚ) * 1000) = 2469/2 := by norm_num
  unfold roundHalfEven
  rw [hq, aux_floor_2469_half]
  norm_num

/-- The spec example: 1.2345 seconds rendered at three decimals. -/
theorem aux_fmt3_example : fmt3 (2469/2000) = "1.234" := by
  unfold fmt3
  rw [aux_roundHalfEven_example]
  decide

/-- Counterexample to claim C8 as stated: a present status code of `0` is
not rendered — `__repr__` guards on Python truthiness, not on presence —
so the envelope with `status_code = 0` renders with no parenthetical block
at all instead of showing `status=0`. -/
theorem C8_counterexample :
    FortiZTPResponse._http_status_code (V := Nat)
        ⟨[], some 0, none, none⟩ = some 0 ∧
    FortiZTPResponse.reprString (V := Nat) ⟨[], some 0, none, none⟩ =
      "<FortiZTPResponse>" ∧
    FortiZTPResponse.reprString (V := Nat) ⟨[], some 0, none, none⟩ ≠
      "<FortiZTPResponse(status=0)>" :=
  ⟨rfl, rfl, by decide⟩

/-- Claim C8 as amended: the rendering is the compact tag showing
`status=` when the status code is present and nonzero (truthy) and
`time=...s` with three decimals when the elapsed time is present and
nonzero (truthy), omitting whichever is absent or zero, with no
parenthetical block when both are absent or zero. -/
theorem C8_repr_format {V : Type} (r : FortiZTPResponse V) (c : Int) (t : ℚ) :
    (r._http_status_code = some c → c ≠ 0 →
      r._response_time = some t → t ≠ 0 →
      r.reprString =
        "<FortiZTPResponse(status=" ++ toString c ++ ", time=" ++ fmt3 t ++
          "s)>") ∧
    (r._http_status_code = some c → c ≠ 0 →
      pyTruthyOptRat r._response_time = false →
      r.reprString = "<FortiZTPResponse(status=" ++ toString c ++ ")>") ∧
    (pyTruthyOptInt r._http_status_code = false →
      r._response_time = some t → t ≠ 0 →
      r.reprString = "<FortiZTPResponse(time=" ++ fmt3 t ++ "s)>") ∧
    (pyTruthyOptInt r._http_status_code = false →
      pyTruthyOptRat r._response_time = false →
      r.reprString = "<FortiZTPResponse>") := by
  refine ⟨?_, ?_, ?_, ?_⟩
  · intro hc hc0 ht ht0
    have hs : (("status=" ++ toString c) == "") = false :=
      beq_eq_false_iff_ne.mpr (aux_append_left_ne_empty _ _ (by decide))
    have htm : (("time=" ++ fmt3 t ++ "s") == "") = false :=
      beq_eq_false_iff_ne.mpr
        (aux_append_left_ne_empty _ _
          (aux_append_left_ne_empty _ _ (by decide)))
    simp only [FortiZTPResponse.reprString, hc, ht, if_neg hc0, if_neg ht0,
      List.filter, hs, htm, Bool.not_false, List.isEmpty_cons,
      List.isEmpty_nil, aux_intercalate_pair]
    apply String.ext
    simp [String.data_append, aux_intercalate_pair]
  · intro hc hc0 hTF
    have hs : (("status=" ++ toString c) == "") = false :=
      beq_eq_false_iff_ne.mpr (aux_append_left_ne_empty _ _ (by decide))
    rcases hRT : r._response_time with _ | t0
    · simp only [FortiZTPResponse.reprString, hc, hRT, if_neg hc0,
        List.filter, hs, Bool.not_false, List.isEmpty_cons,
        List.isEmpty_nil]
      apply String.ext
      simp [String.data_append, aux_intercalate_single]
    · rw [hRT] at hTF
      simp only [pyTruthyOptRat] at hTF
      have ht0 : t0 = 0 := by
        by_contra hne
        simp [hne] at hTF
      subst ht0
      simp only [FortiZTPResponse.reprString, hc, hRT, if_neg hc0,
        if_pos rfl, List.filter, hs, Bool.not_false, List.isEmpty_cons,
        List.isEmpty_nil]
      apply String.ext
      simp [String.data_append, aux_intercalate_single]
  · intro hSF ht ht0
    have htm : (("time=" ++ fmt3 t ++ "s") == "") = false :=
      beq_eq_false_iff_ne.mpr
        (aux_append_left_ne_empty _ _
          (aux_append_left_ne_empty _ _ (by decide)))
    rcases hSC : r._http_status_code with _ | c0
    · simp only [FortiZTPResponse.reprString, hSC, ht, if_neg ht0,
        List.filter, htm, Bool.not_false, List.isEmpty_cons,
        List.isEmpty_nil]
      apply String.ext
      simp [String.data_append, aux_intercalate_single]
    · rw [hSC] at hSF
      simp only [pyTruthyOptInt] at hSF
      have hc0 : c0 = 0 := by
        by_contra hne
        simp [hne] at hSF
      subst hc0
      simp only [FortiZTPResponse.reprString, hSC, ht, if_neg ht0,
        if_pos rfl, List.filter, htm, Bool.not_false, List.isEmpty_cons,
        List.isEmpty_nil]
      apply String.ext
      simp [String.data_append, aux_intercalate_single]
  · intro hSF hTF
    rcases hSC : r._http_status_code with _ | c0 <;>
      rcases hRT : r._response_time with _ | t0 <;>
        rw [hSC] at hSF <;> rw [hRT] at hTF <;>
          simp only [pyTruthyOptInt, pyTruthyOptRat] at hSF hTF
    · simp [FortiZTPResponse.reprString, hSC, hRT]
    · have ht0 : t0 = 0 := by
        by_contra hne
        simp [hne] at hTF
      subst ht0
      simp [FortiZTPResponse.reprString, hSC, hRT]
    · have hc0 : c0 = 0 := by
        by_contra hne
        simp [hne] at hSF
      subst hc0
      simp [FortiZTPResponse.reprString, hSC, hRT]
    · have ht0 : t0 = 0 := by
        by_contra hne
        simp [hne] at hTF
      have hc0 : c0 = 0 := by
        by_contra hne
        simp [hne] at hSF
      subst ht0
      subst hc0
      simp [FortiZTPResponse.reprString, hSC, hRT]

/-- Witness for C8: the spec example, status 200 with elapsed 1.2345
seconds, renders with the time correctly rounded to three decimals. -/
theorem C8_witness :
    FortiZTPResponse.reprString (V := Nat)
        ⟨[], some 200, some (2469/2000), none⟩ =
      "<FortiZTPResponse(status=200, time=1.234s)>" := by
  have h := (C8_repr_format (V := Nat) ⟨[], some 200, some (2469/2000), none⟩
    200 (2469/2000)).1 rfl (by decide) rfl (by norm_num)
  rw [h, aux_fmt3_example]
  decide
